import Mathlib

/-!
Verification development for the Cloudflare-detection Pages Function in
src/functions/detect.js. The JavaScript is shallowly embedded: JS numbers
that matter here are exact integers (all arithmetic in the source stays far
below 2^53, where doubles are exact), NaN is modelled by `none` in
`Option Int`, 32-bit coercions of the JS bitwise operators are explicit,
and the outbound network calls (DNS-over-HTTPS, HEAD probe, range-list
fetches) are oracles supplied by an `Env` record. The request handler is a
pure function of the environment and the request context; it also returns
the ordered list of outbound calls it performed.
-/

/-! ## JS number primitives (exact-integer model, NaN as none) -/

/-- A JS number as used in detect.js: an exact integer, or NaN (`none`). -/
abbrev JSNum := Option Int

/-- ToUint32: reduce an integer to its unsigned 32-bit residue. -/
def toUint32 (n : Int) : Nat := (n % ((2 : Int) ^ 32)).toNat

/-- ToInt32: reduce an integer to its signed 32-bit representative. -/
def toInt32 (n : Int) : Int :=
  if n % ((2 : Int) ^ 32) < (2 : Int) ^ 31 then n % ((2 : Int) ^ 32)
  else n % ((2 : Int) ^ 32) - (2 : Int) ^ 32

/-- ToInt32 on a JS number; ToInt32 of NaN is 0. -/
def jsToInt32 : JSNum → Int
  | none => 0
  | some n => toInt32 n

/-- ToUint32 on a JS number; ToUint32 of NaN is 0. -/
def jsToUint32 : JSNum → Nat
  | none => 0
  | some n => toUint32 n

/-- JS left shift `a << b`: ToInt32 of the left operand shifted by the low
five bits of ToUint32 of the right operand, truncated back to int32. -/
def jsShl (a b : JSNum) : Int :=
  toInt32 (jsToInt32 a * (2 : Int) ^ (jsToUint32 b % 32))

/-- JS addition on (integer-valued) numbers, propagating NaN. -/
def jsAdd : JSNum → JSNum → JSNum
  | some a, some b => some (a + b)
  | _, _ => none

/-- JS subtraction on (integer-valued) numbers, propagating NaN. -/
def jsSub : JSNum → JSNum → JSNum
  | some a, some b => some (a - b)
  | _, _ => none

/-! ## JS string primitives -/

/-- Whitespace as recognised by JS trim and parseInt (the forms that can
occur in this program). -/
def isJsSpace (c : Char) : Bool :=
  c == ' ' || c == '\t' || c == '\n' || c == '\r' || c == '\x0b' || c == '\x0c'

/-- JS String.prototype.trim. -/
def jsTrim (s : String) : String :=
  String.mk (((s.data.dropWhile isJsSpace).reverse.dropWhile isJsSpace).reverse)

/-- Lowercase one character (ASCII range, the only case this program meets). -/
def jsCharLower (c : Char) : Char :=
  if 'A' ≤ c ∧ c ≤ 'Z' then Char.ofNat (c.toNat + 32) else c

/-- JS String.prototype.toLowerCase (ASCII fragment). -/
def jsToLower (s : String) : String := String.mk (s.data.map jsCharLower)

/-- Core of String.prototype.split with a one-character separator:
accumulate the current field, emitting a field at each separator. -/
def splitCharAux (sep : Char) : List Char → List Char → List (List Char)
  | [], acc => [acc.reverse]
  | c :: rest, acc =>
    if c = sep then acc.reverse :: splitCharAux sep rest []
    else splitCharAux sep rest (c :: acc)

/-- JS `s.split(sep)` for a single-character separator string. -/
def jsSplitChar (s : String) (sep : Char) : List String :=
  (splitCharAux sep s.data []).map String.mk

/-- Split on the line-ending pattern of detect.js (`\r?\n`): a newline,
optionally preceded by a carriage return, separates fields; a lone
carriage return is ordinary data. -/
def splitLinesAux : List Char → List Char → List (List Char)
  | [], acc => [acc.reverse]
  | '\r' :: '\n' :: rest, acc => acc.reverse :: splitLinesAux rest []
  | '\n' :: rest, acc => acc.reverse :: splitLinesAux rest []
  | c :: rest, acc => splitLinesAux rest (c :: acc)

/-- JS `s.split(/\r?\n/)`. -/
def splitLines (s : String) : List String := (splitLinesAux s.data []).map String.mk

/-- Decimal value of a digit string. -/
def digitsToNat (ds : List Char) : Nat := ds.foldl (fun a c => a * 10 + (c.toNat - 48)) 0

/-- Leading decimal digits of a character list, as a value; none if there
is no leading digit (parseInt would give NaN). -/
def digitsVal (l : List Char) : Option Nat :=
  match l.takeWhile Char.isDigit with
  | [] => none
  | ds => some (digitsToNat ds)

/-- JS parseInt in base 10 after whitespace skipping: an optional sign
followed by the longest digit run; anything else is NaN. -/
def parseIntChars : List Char → JSNum
  | '-' :: rest => (digitsVal rest).map (fun n => -(Int.ofNat n))
  | '+' :: rest => (digitsVal rest).map Int.ofNat
  | l => (digitsVal l).map Int.ofNat

/-- JS `parseInt(s, 10)`. -/
def parseIntStr (s : String) : JSNum := parseIntChars (s.data.dropWhile isJsSpace)

/-- JS `parseInt(x, 10)` where `x` may be undefined (destructuring a
missing array slot); parseInt of undefined is NaN. -/
def parseIntOpt : Option String → JSNum
  | none => none
  | some s => parseIntStr s

/-- Whether a character occurs in a string: JS `s.indexOf(c) !== -1`. -/
def hasChar (s : String) (c : Char) : Bool := s.data.any (fun d => d == c)

/-- Whether `p` occurs as a contiguous run inside `l` (JS includes). -/
def hasSub (l : List Char) (p : List Char) : Bool :=
  match l with
  | [] => p.isEmpty
  | c :: rest => p.isPrefixOf (c :: rest) || hasSub rest p

/-- JS `s.includes(sub)`. -/
def jsIncludes (s sub : String) : Bool := hasSub s.data sub.data

/-- JS `s.endsWith(p)`. -/
def jsEndsWith (s p : String) : Bool := p.data.isSuffixOf s.data

/-- JS `s.replace(/\.$/, "")`: remove one trailing dot if present. -/
def stripOneTrailingDot (s : String) : String :=
  match s.data.getLast? with
  | some '.' => String.mk s.data.dropLast
  | _ => s

/-- Lookup in an association list of header or object entries, JS
`headers.get(k)` and `obj[k]` (undefined is none). -/
def alGet (h : List (String × String)) (k : String) : Option String :=
  match h.find? (fun p => p.1 == k) with
  | some p => some p.2
  | none => none

/-- Truthiness of a JS string-or-undefined value: defined and non-empty. -/
def jsTruthy : Option String → Bool
  | some v => v != ""
  | none => false

/-! ## Data model of detect.js -/

/-- One DNS answer record `{type, data}` from the DoH JSON body. -/
structure DnsRec where
  type : Int
  data : String
deriving DecidableEq

/-- A parsed DoH JSON body; `Answer` is absent when the endpoint returns
no Answer field. -/
structure DohJson where
  Answer : Option (List DnsRec)
deriving DecidableEq

/-- The outcome of the fetch inside `doh`: the HTTP ok flag and the
parsed JSON body the response would yield. -/
structure DohResp where
  ok : Bool
  json : DohJson
deriving DecidableEq

/-- A non-throwing HEAD response: status and response headers (header
names as normalised, lowercased, by the fetch Headers object). -/
structure HeadResp where
  status : Nat
  headers : List (String × String)
deriving DecidableEq

/-- The result object built by `tryFetch`: on success `{ok, status,
headers}`, on a caught exception `{ok:false, error}` with NO headers
field (modelled as `none`, the JS undefined). -/
structure ProbeResult where
  ok : Bool
  status : Option Nat
  headers : Option (List (String × String))
  error : Option String
deriving DecidableEq

/-- The network environment: the DoH endpoint keyed by (name, record
type), the HEAD fetch keyed by URL (throwing is `Except.error`), and the
bodies of the two Cloudflare range lists (their fetches are not guarded
in the source, so the model assumes they succeed). -/
structure Env where
  dohFetch : String → String → DohResp
  headFetch : String → Except String HeadResp
  ipsV4Text : String
  ipsV6Text : String

/-- The request context: the `domain` query parameter (none when absent)
and the `domain` field of the JSON body as a string (none when the body
is unparseable, absent, or the field is missing or null). -/
structure Ctx where
  queryDomain : Option String
  bodyDomain : Option String
deriving DecidableEq

/-- The final inference object of detect.js, field for field. -/
structure Inference where
  domain : String
  resolved_ips : List String
  nameservers : List String
  headerHints : List String
  ips_in_cloudflare_ranges : List String
  ns_using_cloudflare : Bool
  likely_using_cloudflare : Bool
deriving DecidableEq

/-- What the handler produces: the early 400 response with its exact
body, the 200 response carrying the inference object (serialised by
JSON.stringify in the source), or an uncaught exception. -/
inductive HandlerResult where
  | response (status : Nat) (body : String)
  | success (inf : Inference)
  | crash (msg : String)
deriving DecidableEq

/-- One outbound network call, as recorded in request order. -/
inductive NetCall where
  | doh (name recordType : String)
  | probe (url : String)
  | rangeList (url : String)
deriving DecidableEq

/-- Whether a recorded call is a HEAD probe of the domain. -/
def NetCall.isProbe : NetCall → Bool
  | .probe _ => true
  | _ => false

/-! ## The embedded program -/

/-- JS `a || b` for string-or-undefined values, with a string default:
the left value when truthy, else the default chain. -/
def truthyOrElse (v : Option String) (dflt : String) : String :=
  match v with
  | some s => if s = "" then dflt else s
  | none => dflt

/-- Line 5 of detect.js: query parameter, else JSON body field, else the
empty string; then trim and lowercase. -/
def extractDomain (ctx : Ctx) : String :=
  jsToLower (jsTrim (truthyOrElse ctx.queryDomain (truthyOrElse ctx.bodyDomain "")))

/-- The exact body of the 400 response, JSON.stringify of the error
object. -/
def missingDomainBody : String := "\x7b\"error\":\"Missing domain\"\x7d"

/-- Lines 9-14, `doh`: null when the upstream status is not ok, the
parsed JSON body otherwise. -/
def dohCallResult (env : Env) (name ty : String) : Option DohJson :=
  if (env.dohFetch name ty).ok then some (env.dohFetch name ty).json else none

/-- Line 18: A-record data values, type code 1 only; an absent body or
absent Answer list yields the empty list. -/
def ipv4Of (aJson : Option DohJson) : List String :=
  match aJson with
  | some j =>
    match j.Answer with
    | some ans => (ans.filter (fun a => a.type == 1)).map (fun a => a.data)
    | none => []
  | none => []

/-- Line 22: every NS answer record, one trailing dot stripped, then
lowercased; an absent body or absent Answer list yields the empty list. -/
def nameserversOf (nsJson : Option DohJson) : List String :=
  match nsJson with
  | some j =>
    match j.Answer with
    | some ans => ans.map (fun a => jsToLower (stripOneTrailingDot a.data))
    | none => []
  | none => []

/-- The fixed allow-list of interesting headers of lines 30-33. -/
def interestingHeaderKeys : List String :=
  ["server", "cf-ray", "cf-cache-status", "via", "x-powered-by"]

/-- Lines 30-33: keep each allow-listed header that is present with a
truthy (non-empty) value. -/
def captureHeaders (hdrs : List (String × String)) : List (String × String) :=
  interestingHeaderKeys.foldl (fun h k =>
    match alGet hdrs k with
    | some v => if v = "" then h else h ++ [(k, v)]
    | none => h) []

/-- Lines 26-36, `tryFetch(proto)`: a successful HEAD gives ok with the
captured headers; a thrown fetch is caught and becomes ok:false with an
error string and no headers field. -/
def tryFetch (env : Env) (domain proto : String) : ProbeResult :=
  match env.headFetch (proto ++ "://" ++ domain) with
  | Except.ok r => ⟨true, some r.status, some (captureHeaders r.headers), none⟩
  | Except.error e => ⟨false, none, none, some e⟩

/-- Lines 38-39: https first; the http result replaces it exactly when
the https attempt is not ok. -/
def httpInfoOf (env : Env) (d : String) : ProbeResult :=
  if (tryFetch env d "https").ok then tryFetch env d "https" else tryFetch env d "http"

/-- Lines 42-44: both range lists split on line endings, concatenated,
with falsy (empty) lines dropped. -/
def cfRangesOf (env : Env) : List String :=
  ((splitLines env.ipsV4Text) ++ (splitLines env.ipsV6Text)).filter (fun s => s ≠ "")

/-- Lines 47-49, `ipToInt`: fold the dot-separated fields through
`(acc << 8) + parseInt(oct, 10)` and coerce the final value with
`>>> 0`. -/
def ipToInt (ip : String) : Nat :=
  jsToUint32 ((jsSplitChar ip '.').foldl
    (fun acc oct => jsAdd (some (jsShl acc (some 8))) (parseIntStr oct)) (some 0))

/-- Line 55: the mask of lines 50-57; 0 for an empty prefix-length text,
otherwise `(~0 << (32 - parseInt(mask, 10))) >>> 0` with JS shift
semantics (shift count taken mod 32). -/
def cidrMaskInt (maskStr : Option String) : Nat :=
  if maskStr == some "" then 0
  else toUint32 (jsShl (some (-1)) (jsSub (some 32) (parseIntOpt maskStr)))

/-- Lines 50-57, `cidrContains`: ranges containing a colon never match;
otherwise compare network and candidate under the mask. The source
destructures `cidr.split('/')` into net (first field, split is never
empty) and mask (second field or undefined). -/
def cidrContains (cidr ip : String) : Bool :=
  if hasChar cidr ':' then false
  else
    Nat.land (ipToInt ((jsSplitChar cidr '/').headD ""))
        (cidrMaskInt (jsSplitChar cidr '/')[1]?) ==
      Nat.land (ipToInt ip) (cidrMaskInt (jsSplitChar cidr '/')[1]?)

/-- Line 61: a nameserver matches when it ends with ns.cloudflare.com or
contains cloudflare anywhere. -/
def nsUsesCloudflareOf (nss : List String) : Bool :=
  nss.any (fun ns => jsEndsWith ns "ns.cloudflare.com" || jsIncludes ns "cloudflare")

/-- Condition of line 64: the server header is truthy and its lowercased
value contains cloudflare. -/
def condServer (h : List (String × String)) : Bool :=
  match alGet h "server" with
  | some v => if v = "" then false else jsIncludes (jsToLower v) "cloudflare"
  | none => false

/-- Condition of line 65: the cf-ray header was captured (truthy). -/
def condRay (h : List (String × String)) : Bool := jsTruthy (alGet h "cf-ray")

/-- Condition of line 66: the cf-cache-status header was captured. -/
def condCache (h : List (String × String)) : Bool := jsTruthy (alGet h "cf-cache-status")

/-- The three hint strings of lines 64-66. -/
def hintServer : String := "server: cloudflare"

/-- Hint pushed when the cf-ray header is present. -/
def hintRay : String := "cf-ray header present"

/-- Hint pushed when the cf-cache-status header is present. -/
def hintCache : String := "cf-cache-status header present"

/-- Lines 63-66 given the headers map: the pushes, in source order. -/
def headerHintsList (h : List (String × String)) : List String :=
  (if condServer h then [hintServer] else []) ++
    (if condRay h then [hintRay] else []) ++
      (if condCache h then [hintCache] else [])

/-- The message of the uncaught TypeError raised by line 64 when
`httpInfo.headers` is undefined. -/
def crashMsg : String := "TypeError: cannot read properties of undefined"

/-- Lines 63-66 on the probe result: reading `.headers[k]` when the
headers field is undefined (both probes failed) throws. -/
def headerIndications (httpInfo : ProbeResult) : Except String (List String) :=
  match httpInfo.headers with
  | none => Except.error crashMsg
  | some h => Except.ok (headerHintsList h)

/-- The A-record list for a request on domain `d`. -/
def ipv4For (env : Env) (d : String) : List String := ipv4Of (dohCallResult env d "A")

/-- The nameserver list for a request on domain `d`. -/
def nameserversFor (env : Env) (d : String) : List String :=
  nameserversOf (dohCallResult env d "NS")

/-- Line 58: resolved IPv4 addresses that fall in some fetched range. -/
def ipsBehindCFFor (env : Env) (d : String) : List String :=
  (ipv4For env d).filter (fun ip => (cfRangesOf env).any (fun r => cidrContains r ip))

/-- Line 61 applied to the request nameservers. -/
def nsUsesFor (env : Env) (d : String) : Bool := nsUsesCloudflareOf (nameserversFor env d)

/-- Lines 70-78: the inference object, with the final boolean OR of the
three signals. -/
def inferenceFor (env : Env) (d : String) (hints : List String) : Inference :=
  { domain := d
    resolved_ips := ipv4For env d
    nameservers := nameserversFor env d
    headerHints := hints
    ips_in_cloudflare_ranges := ipsBehindCFFor env d
    ns_using_cloudflare := nsUsesFor env d
    likely_using_cloudflare :=
      nsUsesFor env d || decide (hints.length > 0) ||
        decide ((ipsBehindCFFor env d).length > 0) }

/-- The probe part of the outbound-call record: https, then http exactly
when https was not ok. -/
def probeTraceFor (env : Env) (d : String) : List NetCall :=
  if (tryFetch env d "https").ok then [NetCall.probe ("https://" ++ d)]
  else [NetCall.probe ("https://" ++ d), NetCall.probe ("http://" ++ d)]

/-- All outbound calls of a non-400 request, in source order: the two
DoH lookups, the probe attempt(s), the two range-list fetches. -/
def traceFor (env : Env) (d : String) : List NetCall :=
  [NetCall.doh d "A", NetCall.doh d "NS"] ++ probeTraceFor env d ++
    [NetCall.rangeList "https://www.cloudflare.com/ips-v4",
     NetCall.rangeList "https://www.cloudflare.com/ips-v6"]

/-- Lines 3-82, `onRequest`: empty domain returns the 400 response with
no outbound call; otherwise the pipeline runs and either crashes at the
header-hint step (both probes failed) or returns the 200 inference. -/
def runHandler (env : Env) (ctx : Ctx) : HandlerResult × List NetCall :=
  if extractDomain ctx = "" then (HandlerResult.response 400 missingDomainBody, [])
  else
    match headerIndications (httpInfoOf env (extractDomain ctx)) with
    | Except.error e => (HandlerResult.crash e, traceFor env (extractDomain ctx))
    | Except.ok hints =>
      (HandlerResult.success (inferenceFor env (extractDomain ctx) hints),
        traceFor env (extractDomain ctx))

/-! ## Helper lemmas -/

/-- Splitting a list free of the separator yields one field. -/
theorem splitCharAux_of_not_mem (sep : Char) (l acc : List Char) (h : sep ∉ l) :
    splitCharAux sep l acc = [acc.reverse ++ l] := by
  induction l generalizing acc with
  | nil => simp [splitCharAux]
  | cons c rest ih =>
    have hcs : sep ≠ c ∧ sep ∉ rest := by simpa [List.mem_cons, not_or] using h
    simp only [splitCharAux]
    rw [if_neg (fun e => hcs.1 e.symm), ih (c :: acc) hcs.2]
    simp

/-- Splitting past the first separator occurrence emits the first field
and recurses on the remainder. -/
theorem splitCharAux_append (sep : Char) (l m acc : List Char) (h : sep ∉ l) :
    splitCharAux sep (l ++ sep :: m) acc = (acc.reverse ++ l) :: splitCharAux sep m [] := by
  induction l generalizing acc with
  | nil => simp [splitCharAux]
  | cons c rest ih =>
    have hcs : sep ≠ c ∧ sep ∉ rest := by simpa [List.mem_cons, not_or] using h
    have hstep : (c :: rest) ++ sep :: m = c :: (rest ++ sep :: m) := rfl
    rw [hstep]
    simp only [splitCharAux]
    rw [if_neg (fun e => hcs.1 e.symm), ih (c :: acc) hcs.2]
    simp

/-- Every character of the input is either the separator or belongs to
one of the produced fields. -/
theorem splitCharAux_mem (sep : Char) (l : List Char) :
    ∀ acc c, c ∈ l ∨ c ∈ acc → c = sep ∨ ∃ p, p ∈ splitCharAux sep l acc ∧ c ∈ p := by
  induction l with
  | nil =>
    intro acc c hc
    rcases hc with hc | hc
    · exact absurd hc (List.not_mem_nil c)
    · exact Or.inr ⟨acc.reverse, by simp [splitCharAux], by simpa using hc⟩
  | cons d rest ih =>
    intro acc c hc
    simp only [splitCharAux]
    by_cases hd : d = sep
    · rw [if_pos hd]
      rcases hc with hc | hc
      · rcases List.mem_cons.mp hc with rfl | hc
        · exact Or.inl hd
        · rcases ih [] c (Or.inl hc) with h | ⟨p, hp, hcp⟩
          · exact Or.inl h
          · exact Or.inr ⟨p, List.mem_cons_of_mem _ hp, hcp⟩
      · exact Or.inr ⟨acc.reverse, List.mem_cons_self _ _, by simpa using hc⟩
    · rw [if_neg hd]
      apply ih (d :: acc) c
      rcases hc with hc | hc
      · rcases List.mem_cons.mp hc with rfl | hc
        · exact Or.inr (List.mem_cons_self _ _)
        · exact Or.inl hc
      · exact Or.inr (List.mem_cons_of_mem _ hc)

/-- Data of an appended string. -/
theorem string_data_append (s t : String) : (s ++ t).data = s.data ++ t.data := by
  cases s; cases t; rfl

/-- Rebuilding a string from its character list. -/
theorem string_mk_data (s : String) : String.mk s.data = s := by
  cases s; rfl

/-- A valid dotted-quad address: exactly four dot-separated fields, each
a non-empty digit run with value at most 255. -/
def isOctet (l : List Char) : Bool :=
  !l.isEmpty && l.all Char.isDigit && decide (digitsToNat l ≤ 255)

/-- Validity of a dotted-quad IPv4 address string. -/
def isValidIPv4 (s : String) : Bool :=
  (splitCharAux '.' s.data []).length == 4 && (splitCharAux '.' s.data []).all isOctet

/-- Characters of a valid dotted quad are digits or dots. -/
theorem isValidIPv4_chars (ip : String) (h : isValidIPv4 ip = true) :
    ∀ c ∈ ip.data, c.isDigit = true ∨ c = '.' := by
  intro c hc
  unfold isValidIPv4 at h
  rw [Bool.and_eq_true] at h
  obtain ⟨-, hall⟩ := h
  rcases splitCharAux_mem '.' ip.data [] c (Or.inl hc) with hdot | ⟨p, hp, hcp⟩
  · exact Or.inr hdot
  · left
    have hoct : isOctet p = true := List.all_eq_true.mp hall p hp
    unfold isOctet at hoct
    rw [Bool.and_eq_true, Bool.and_eq_true] at hoct
    exact List.all_eq_true.mp hoct.1.2 c hcp

/-- A valid dotted quad contains neither a slash nor a colon. -/
theorem isValidIPv4_no_slash_colon (ip : String) (h : isValidIPv4 ip = true) :
    '/' ∉ ip.data ∧ ':' ∉ ip.data := by
  refine ⟨fun hmem => ?_, fun hmem => ?_⟩
  · rcases isValidIPv4_chars ip h _ hmem with hd | hd
    · exact absurd hd (by decide)
    · exact absurd hd (by decide)
  · rcases isValidIPv4_chars ip h _ hmem with hd | hd
    · exact absurd hd (by decide)
    · exact absurd hd (by decide)

/-- Splitting `ip ++ "/32"` on the slash, for slash-free `ip`. -/
theorem jsSplitChar_append_32 (ip : String) (h : '/' ∉ ip.data) :
    jsSplitChar (ip ++ "/32") '/' = [ip, "32"] := by
  unfold jsSplitChar
  rw [string_data_append]
  have h32 : ("/32" : String).data = '/' :: ['3', '2'] := by decide
  rw [h32, splitCharAux_append '/' ip.data ['3', '2'] [] h,
    splitCharAux_of_not_mem '/' ['3', '2'] [] (by decide)]
  simp [string_mk_data]

/-- Any over a mapped list, fused. -/
theorem any_map_eq {α β : Type} (f : α → β) (p : β → Bool) (l : List α) :
    (l.map f).any p = l.any (fun a => p (f a)) := by
  induction l with
  | nil => rfl
  | cons a t ih => simp [ih]

/-- A successful handler run reaches the ok branch of the header-hint
step with a non-empty domain, and its inference object is the one built
by `inferenceFor`. -/
theorem runHandler_success_shape (env : Env) (ctx : Ctx) (inf : Inference)
    (h : (runHandler env ctx).1 = HandlerResult.success inf) :
    ∃ hints, extractDomain ctx ≠ "" ∧
      headerIndications (httpInfoOf env (extractDomain ctx)) = Except.ok hints ∧
      inf = inferenceFor env (extractDomain ctx) hints := by
  unfold runHandler at h
  by_cases hd : extractDomain ctx = ""
  · rw [if_pos hd] at h
    simp at h
  · rw [if_neg hd] at h
    cases hc : headerIndications (httpInfoOf env (extractDomain ctx)) with
    | error e => rw [hc] at h; simp at h
    | ok hints =>
      rw [hc] at h
      simp at h
      exact ⟨hints, hd, rfl, h.symm⟩

/-- The outbound-call record of a non-400 request is `traceFor`. -/
theorem runHandler_trace (env : Env) (ctx : Ctx) (hd : extractDomain ctx ≠ "") :
    (runHandler env ctx).2 = traceFor env (extractDomain ctx) := by
  unfold runHandler
  rw [if_neg hd]
  cases headerIndications (httpInfoOf env (extractDomain ctx)) <;> rfl

/-! ## Claim C1 -/

/-- Environment for C1: both HEAD transports throw; DNS returns no data. -/
def envC1 : Env :=
  ⟨fun _ _ => ⟨false, ⟨none⟩⟩, fun _ => Except.error "TypeError: Failed to fetch", "", ""⟩

/-- Request context for C1. -/
def ctxC1 : Ctx := ⟨some "failing.example", none⟩

/-- C1: the claim says a request whose HEAD probe fails on both
transports still completes normally with headerHints = []. The probe
failures themselves are caught locally by tryFetch (first two
conjuncts), but the request then aborts: line 64 reads
`httpInfo.headers["server"]` while the ok:false probe result has no
headers field, so the handler throws instead of returning a response.
The code contradicts the claim (and sections 7 and 8 of the spec). -/
theorem c1_probe_failure_crashes :
    tryFetch envC1 "failing.example" "https" =
      ⟨false, none, none, some "TypeError: Failed to fetch"⟩ ∧
    tryFetch envC1 "failing.example" "http" =
      ⟨false, none, none, some "TypeError: Failed to fetch"⟩ ∧
    (runHandler envC1 ctxC1).1 = HandlerResult.crash crashMsg := by
  decide

/-! ## Claim C2 -/

/-- C2: the claim says `cidrContains("0.0.0.0/0", ip)` is true for every
IPv4 address. It is false at "1.2.3.4": the shift count of the JS mask
expression `~0 << (32 - 0)` is taken modulo 32, so the /0 mask is
0xFFFFFFFF instead of 0 and only "0.0.0.0" itself matches (second
conjunct). The code contradicts the claim and the standard CIDR
semantics the spec describes. -/
theorem c2_zero_prefix_eval :
    cidrContains "0.0.0.0/0" "1.2.3.4" = false ∧
    cidrContains "0.0.0.0/0" "0.0.0.0" = true := by
  decide

/-! ## Claim C4 -/

/-- C4: whenever the extracted domain (query parameter or JSON body
field, trimmed and lowercased) is empty, the handler returns the 400
response with body missingDomainBody and performs no outbound call. -/
theorem c4_missing_domain (env : Env) (ctx : Ctx) (hd : extractDomain ctx = "") :
    runHandler env ctx = (HandlerResult.response 400 missingDomainBody, []) := by
  unfold runHandler
  rw [if_pos hd]

/-- Environment for the C4 witness. -/
def envC4 : Env := ⟨fun _ _ => ⟨true, ⟨none⟩⟩, fun _ => Except.ok ⟨200, []⟩, "", ""⟩

/-- Context for the C4 witness: a whitespace-only query value. -/
def ctxC4 : Ctx := ⟨some "   ", none⟩

/-- Witness for C4 at a whitespace-only domain parameter. -/
theorem c4_missing_domain_witness :
    runHandler envC4 ctxC4 = (HandlerResult.response 400 missingDomainBody, []) :=
  c4_missing_domain envC4 ctxC4 (by decide)

/-! ## Claim C5 -/

/-- C5: over any NS answer list, the computed flag is true exactly when
some record datum, after one trailing dot is stripped and the result is
lowercased, ends with ns.cloudflare.com or contains cloudflare; and both
"NS.CLOUDFLARE.COM." and "ns.cloudflare.com" satisfy it, so the match is
case- and trailing-dot-insensitive. -/
theorem c5_ns_matching :
    (∀ ans : List DnsRec,
      nsUsesCloudflareOf (nameserversOf (some ⟨some ans⟩)) =
        ans.any (fun a =>
          jsEndsWith (jsToLower (stripOneTrailingDot a.data)) "ns.cloudflare.com" ||
            jsIncludes (jsToLower (stripOneTrailingDot a.data)) "cloudflare")) ∧
    nsUsesCloudflareOf (nameserversOf (some ⟨some [⟨2, "NS.CLOUDFLARE.COM."⟩]⟩)) = true ∧
    nsUsesCloudflareOf (nameserversOf (some ⟨some [⟨2, "ns.cloudflare.com"⟩]⟩)) = true := by
  refine ⟨fun ans => ?_, by decide, by decide⟩
  unfold nsUsesCloudflareOf nameserversOf
  rw [any_map_eq]

/-! ## Claim C9 -/

/-- C9: for every headers map, the hint list is an ordered sublist of
the three fixed hint strings (so the order is server, then ray, then
cache-status, nothing repeats, and nothing else ever appears), and each
hint is present exactly when its header condition holds. -/
theorem c9_header_hints (h : List (String × String)) :
    List.Sublist (headerHintsList h) [hintServer, hintRay, hintCache] ∧
    (hintServer ∈ headerHintsList h ↔ condServer h = true) ∧
    (hintRay ∈ headerHintsList h ↔ condRay h = true) ∧
    (hintCache ∈ headerHintsList h ↔ condCache h = true) := by
  cases hs : condServer h <;> cases hr : condRay h <;> cases hc : condCache h <;>
    simp only [headerHintsList, hs, hr, hc] <;> decide

/-! ## Claim C3 -/

/-- C3: in every successful response, the likely_using_cloudflare field
is true exactly when the nameserver flag is set, or headerHints is
non-empty, or ips_in_cloudflare_ranges is non-empty. -/
theorem c3_likely_or_semantics (env : Env) (ctx : Ctx) (inf : Inference)
    (h : (runHandler env ctx).1 = HandlerResult.success inf) :
    inf.likely_using_cloudflare = true ↔
      (inf.ns_using_cloudflare = true ∨ inf.headerHints ≠ [] ∨
        inf.ips_in_cloudflare_ranges ≠ []) := by
  obtain ⟨hints, -, -, hinf⟩ := runHandler_success_shape env ctx inf h
  subst hinf
  simp [inferenceFor, Bool.or_eq_true, decide_eq_true_eq, List.length_pos, or_assoc]

/-- Environment for the C3 witness: DNS gives no data, ranges are empty,
the HEAD probe succeeds with only a cf-ray header, so the header hint is
the only signal. -/
def envC3 : Env :=
  ⟨fun _ _ => ⟨false, ⟨none⟩⟩, fun _ => Except.ok ⟨200, [("cf-ray", "8f2d9-EWR")]⟩, "", ""⟩

/-- Context for the C3 witness. -/
def ctxC3 : Ctx := ⟨some "example.com", none⟩

/-- The inference produced in the C3 witness run: only a header hint,
and the verdict is true. -/
def infC3 : Inference :=
  { domain := "example.com"
    resolved_ips := []
    nameservers := []
    headerHints := ["cf-ray header present"]
    ips_in_cloudflare_ranges := []
    ns_using_cloudflare := false
    likely_using_cloudflare := true }

/-- Witness for C3 on a run where only a header hint is present. -/
theorem c3_likely_or_semantics_witness :
    (runHandler envC3 ctxC3).1 = HandlerResult.success infC3 ∧
    (infC3.likely_using_cloudflare = true ↔
      (infC3.ns_using_cloudflare = true ∨ infC3.headerHints ≠ [] ∨
        infC3.ips_in_cloudflare_ranges ≠ [])) :=
  ⟨by decide, c3_likely_or_semantics envC3 ctxC3 infC3 (by decide)⟩

/-! ## Claim C6 -/

/-- C6: in every request that reaches the probe step, the recorded probe
calls are https alone when the https attempt is ok and https followed by
http otherwise; there are never more than two probe attempts; and the
probe result fed to the aggregation is the https result when it is ok
and the http result otherwise. -/
theorem c6_probe_policy (env : Env) (ctx : Ctx) (hd : extractDomain ctx ≠ "") :
    ((runHandler env ctx).2.filter NetCall.isProbe =
      if (tryFetch env (extractDomain ctx) "https").ok then
        [NetCall.probe ("https://" ++ extractDomain ctx)]
      else
        [NetCall.probe ("https://" ++ extractDomain ctx),
         NetCall.probe ("http://" ++ extractDomain ctx)]) ∧
    ((runHandler env ctx).2.filter NetCall.isProbe).length ≤ 2 ∧
    httpInfoOf env (extractDomain ctx) =
      (if (tryFetch env (extractDomain ctx) "https").ok then
        tryFetch env (extractDomain ctx) "https"
      else tryFetch env (extractDomain ctx) "http") := by
  rw [runHandler_trace env ctx hd]
  refine ⟨?_, ?_, rfl⟩ <;>
    cases hok : (tryFetch env (extractDomain ctx) "https").ok <;>
      simp [traceFor, probeTraceFor, hok, NetCall.isProbe]

/-- Environment for the C6 witness: the https probe throws, the http
probe succeeds, so both attempts are exercised. -/
def envC6 : Env :=
  ⟨fun _ _ => ⟨false, ⟨none⟩⟩,
   fun u => if u = "https://fallback.example" then Except.error "TypeError: Failed to fetch"
            else Except.ok ⟨200, []⟩, "", ""⟩

/-- Context for the C6 witness. -/
def ctxC6 : Ctx := ⟨some "fallback.example", none⟩

/-- Witness for C6 on a run whose https attempt fails. -/
theorem c6_probe_policy_witness :
    ((runHandler envC6 ctxC6).2.filter NetCall.isProbe =
      if (tryFetch envC6 (extractDomain ctxC6) "https").ok then
        [NetCall.probe ("https://" ++ extractDomain ctxC6)]
      else
        [NetCall.probe ("https://" ++ extractDomain ctxC6),
         NetCall.probe ("http://" ++ extractDomain ctxC6)]) ∧
    ((runHandler envC6 ctxC6).2.filter NetCall.isProbe).length ≤ 2 ∧
    httpInfoOf envC6 (extractDomain ctxC6) =
      (if (tryFetch envC6 (extractDomain ctxC6) "https").ok then
        tryFetch envC6 (extractDomain ctxC6) "https"
      else tryFetch envC6 (extractDomain ctxC6) "http") :=
  c6_probe_policy envC6 ctxC6 (by decide)

/-! ## Claim C7 -/

/-- Environment for C7: the DoH endpoint answers non-success for every
query, the HEAD probe returns a plain 503 with no headers. -/
def envDohFail : Env :=
  ⟨fun _ _ => ⟨false, ⟨none⟩⟩, fun _ => Except.ok ⟨503, []⟩, "", ""⟩

/-- Environment for the failing part of C7: DoH non-success as above,
and additionally both HEAD transports throw. -/
def envDohProbeFail : Env :=
  ⟨fun _ _ => ⟨false, ⟨none⟩⟩, fun _ => Except.error "TypeError: Failed to fetch", "", ""⟩

/-- Context for C7. -/
def ctxC7 : Ctx := ⟨some "example.com", none⟩

/-- The inference of the nominal C7 run: every list empty, verdict
false. -/
def infC7 : Inference :=
  { domain := "example.com"
    resolved_ips := []
    nameservers := []
    headerHints := []
    ips_in_cloudflare_ranges := []
    ns_using_cloudflare := false
    likely_using_cloudflare := false }

/-- C7: with non-success DoH responses, `doh` returns null for both
lookups and the lists collapse to empty (first three conjuncts: the
nominal run returns the normal inference with resolved_ips = [] and
nameservers = []). The universal claim that such a request always
completes normally is still broken by the code: if the HEAD probe also
fails on both transports, the handler throws at the header-hint step
instead of responding (last conjunct), contradicting the claimed
non-error response. -/
theorem c7_doh_nonsuccess_eval :
    dohCallResult envDohFail "example.com" "A" = none ∧
    dohCallResult envDohFail "example.com" "NS" = none ∧
    (runHandler envDohFail ctxC7).1 = HandlerResult.success infC7 ∧
    dohCallResult envDohProbeFail "example.com" "A" = none ∧
    (runHandler envDohProbeFail ctxC7).1 = HandlerResult.crash crashMsg := by
  decide

/-! ## Claim C8 -/

/-- C8: CIDR containment is reflexive at /32: a valid dotted-quad
address is contained in its own /32 range. The proof does not even need
the mask value: for a slash-free, colon-free address the split yields
the address itself as network, and both sides of the masked comparison
coincide. -/
theorem c8_cidr_reflexive (ip : String) (h : isValidIPv4 ip = true) :
    cidrContains (ip ++ "/32") ip = true := by
  obtain ⟨hslash, hcolon⟩ := isValidIPv4_no_slash_colon ip h
  have hnc : hasChar (ip ++ "/32") ':' = false := by
    unfold hasChar
    rw [string_data_append, List.any_append]
    have h1 : ip.data.any (fun d => d == ':') = false := by
      cases hx : ip.data.any (fun d => d == ':') with
      | false => rfl
      | true =>
        obtain ⟨x, hxmem, hxeq⟩ := List.any_eq_true.mp hx
        rw [beq_iff_eq] at hxeq
        exact absurd (hxeq ▸ hxmem) hcolon
    have h2 : (("/32" : String).data.any (fun d => d == ':')) = false := by decide
    rw [h1, h2]
    rfl
  unfold cidrContains
  rw [if_neg (by simp [hnc])]
  rw [jsSplitChar_append_32 ip hslash]
  simp

/-- Witness for C8 at the address 1.2.3.4. -/
theorem c8_cidr_reflexive_witness :
    isValidIPv4 "1.2.3.4" = true ∧ cidrContains ("1.2.3.4" ++ "/32") "1.2.3.4" = true :=
  ⟨by decide, c8_cidr_reflexive "1.2.3.4" (by decide)⟩

/-! ## Claim C10 -/

/-- C10: in every successful response, ips_in_cloudflare_ranges is
exactly the filter of resolved_ips by membership in some fetched range,
and is therefore an ordered sublist of resolved_ips. -/
theorem c10_in_ranges_sublist (env : Env) (ctx : Ctx) (inf : Inference)
    (h : (runHandler env ctx).1 = HandlerResult.success inf) :
    inf.ips_in_cloudflare_ranges =
      inf.resolved_ips.filter (fun ip => (cfRangesOf env).any (fun r => cidrContains r ip)) ∧
    List.Sublist inf.ips_in_cloudflare_ranges inf.resolved_ips := by
  obtain ⟨hints, -, -, hinf⟩ := runHandler_success_shape env ctx inf h
  subst hinf
  exact ⟨rfl, List.filter_sublist _⟩

/-- Environment for the C10 witness: one A record inside the stubbed
range list, a non-Cloudflare nameserver, a cloudflare server header. -/
def envC10 : Env :=
  ⟨fun _ ty =>
      if ty = "A" then ⟨true, ⟨some [⟨1, "104.16.1.1"⟩]⟩⟩
      else ⟨true, ⟨some [⟨2, "ns1.example.com."⟩]⟩⟩,
   fun _ => Except.ok ⟨200, [("server", "cloudflare")]⟩,
   "104.16.0.0/12\n", ""⟩

/-- Context for the C10 witness. -/
def ctxC10 : Ctx := ⟨some "example.com", none⟩

/-- The inference of the C10 witness run. -/
def infC10 : Inference :=
  { domain := "example.com"
    resolved_ips := ["104.16.1.1"]
    nameservers := ["ns1.example.com"]
    headerHints := ["server: cloudflare"]
    ips_in_cloudflare_ranges := ["104.16.1.1"]
    ns_using_cloudflare := false
    likely_using_cloudflare := true }

/-- Witness for C10 on a run with a resolved address inside a range. -/
theorem c10_in_ranges_sublist_witness :
    infC10.ips_in_cloudflare_ranges =
      infC10.resolved_ips.filter
        (fun ip => (cfRangesOf envC10).any (fun r => cidrContains r ip)) ∧
    List.Sublist infC10.ips_in_cloudflare_ranges infC10.resolved_ips :=
  c10_in_ranges_sublist envC10 ctxC10 infC10 (by decide)
